import Mathlib

/-!
Shallow embedding of the budget/period aggregation engine of the
Apex-Money personal finance application (`src/app.py`).

Monetary amounts are modelled as integers in cents (the source stores
`Numeric(10, 2)` decimals and computes with Python `Decimal`, which is
exact fixed-point arithmetic, so integer cents is a faithful model).
Calendar dates are modelled as year/month/day triples with the Gregorian
calendar rules; Python `date + timedelta(days=n)` is modelled as `n`
iterations of the successor-day function, which agrees with ordinal
arithmetic on valid dates.
-/

namespace ApexMoney

/-- Calendar date (year, month, day), mirroring Python `datetime.date`. -/
structure Date where
  year : Nat
  month : Nat
  day : Nat
deriving DecidableEq, Repr

/-- Gregorian leap-year rule, as used by Python `datetime`. -/
def isLeap (y : Nat) : Bool :=
  y % 4 == 0 && (y % 100 != 0 || y % 400 == 0)

/-- Number of days in a month of a given year. -/
def daysInMonth (y m : Nat) : Nat :=
  if m == 2 then (if isLeap y then 29 else 28)
  else if m == 4 || m == 6 || m == 9 || m == 11 then 30
  else 31

/-- A structurally valid `datetime.date` value (year range as in CPython). -/
def validDate (d : Date) : Prop :=
  1 ≤ d.year ∧ d.year ≤ 9999 ∧ 1 ≤ d.month ∧ d.month ≤ 12 ∧
    1 ≤ d.day ∧ d.day ≤ daysInMonth d.year d.month

instance (d : Date) : Decidable (validDate d) := by
  unfold validDate; infer_instance

/-- Python date comparison `a <= b` (lexicographic on year, month, day). -/
def dateLeP (a b : Date) : Prop :=
  a.year < b.year ∨ (a.year = b.year ∧
    (a.month < b.month ∨ (a.month = b.month ∧ a.day ≤ b.day)))

instance (a b : Date) : Decidable (dateLeP a b) := by
  unfold dateLeP; infer_instance

/-- Python date comparison `a < b` (lexicographic on year, month, day). -/
def dateLtP (a b : Date) : Prop :=
  a.year < b.year ∨ (a.year = b.year ∧
    (a.month < b.month ∨ (a.month = b.month ∧ a.day < b.day)))

instance (a b : Date) : Decidable (dateLtP a b) := by
  unfold dateLtP; infer_instance

/-- Boolean form of `a <= b` on dates (used inside query filters). -/
def dateLe (a b : Date) : Bool := decide (dateLeP a b)

/-- Boolean form of `a < b` on dates (used inside query filters). -/
def dateLt (a b : Date) : Bool := decide (dateLtP a b)

/-- The day after `d` in the Gregorian calendar. -/
def succDay (d : Date) : Date :=
  if d.day < daysInMonth d.year d.month then ⟨d.year, d.month, d.day + 1⟩
  else if d.month < 12 then ⟨d.year, d.month + 1, 1⟩
  else ⟨d.year + 1, 1, 1⟩

/-- The day before `d` in the Gregorian calendar. -/
def predDay (d : Date) : Date :=
  if 1 < d.day then ⟨d.year, d.month, d.day - 1⟩
  else if 1 < d.month then ⟨d.year, d.month - 1, daysInMonth d.year (d.month - 1)⟩
  else ⟨d.year - 1, 12, 31⟩

/-- `d + timedelta(days=n)` as iterated successor. -/
def addDays : Nat → Date → Date
  | 0, d => d
  | n + 1, d => addDays n (succDay d)

/-- `d - timedelta(days=n)` as iterated predecessor. -/
def subDays : Nat → Date → Date
  | 0, d => d
  | n + 1, d => subDays n (predDay d)

/-- Python `d.replace(day=k)`. -/
def replaceDay (d : Date) (k : Nat) : Date := ⟨d.year, d.month, k⟩

/-- First day of the month after month `m` of year `y` (the half-open
interval end of a month period). -/
def firstOfNextMonth (y m : Nat) : Date :=
  if m < 12 then ⟨y, m + 1, 1⟩ else ⟨y + 1, 1, 1⟩

/-- `(s + timedelta(days=32)).replace(day=1)`: the idiom the source uses
to compute the first day of the month after the month start `s`. -/
def next_month_start (s : Date) : Date := replaceDay (addDays 32 s) 1

-- ### Calendar arithmetic lemmas

theorem daysInMonth_bounds (y m : Nat) :
    28 ≤ daysInMonth y m ∧ daysInMonth y m ≤ 31 := by
  unfold daysInMonth
  split
  · split <;> omega
  · split <;> omega

theorem addDays_in_month (k : Nat) (y m : Nat) :
    ∀ d : Nat, d + k ≤ daysInMonth y m → addDays k ⟨y, m, d⟩ = ⟨y, m, d + k⟩ := by
  induction k with
  | zero => intro d _; rfl
  | succ k ih =>
    intro d h
    have hlt : d < daysInMonth y m := by omega
    show addDays k (succDay ⟨y, m, d⟩) = ⟨y, m, d + (k + 1)⟩
    rw [succDay]
    simp only [hlt, if_pos]
    rw [ih (d + 1) (by omega)]
    congr 1
    omega

theorem addDays_add (a b : Nat) :
    ∀ d : Date, addDays (a + b) d = addDays b (addDays a d) := by
  induction a with
  | zero => intro d; rw [Nat.zero_add]; rfl
  | succ a ih =>
    intro d
    have h : a + 1 + b = (a + b) + 1 := by omega
    rw [h]
    show addDays (a + b) (succDay d) = addDays b (addDays (a + 1) d)
    rw [ih (succDay d)]
    rfl

theorem succDay_last (y m : Nat) :
    succDay ⟨y, m, daysInMonth y m⟩ = firstOfNextMonth y m := by
  unfold succDay firstOfNextMonth
  simp

theorem addDays_month (y m : Nat) :
    addDays (daysInMonth y m) ⟨y, m, 1⟩ = firstOfNextMonth y m := by
  obtain ⟨h28, _⟩ := daysInMonth_bounds y m
  have h : daysInMonth y m = (daysInMonth y m - 1) + 1 := by omega
  rw [h, addDays_add, addDays_in_month (daysInMonth y m - 1) y m 1 (by omega)]
  rw [show (1 : Nat) + (daysInMonth y m - 1) = daysInMonth y m by omega]
  exact succDay_last y m

theorem addDays_32_month_start (y m : Nat) :
    addDays 32 ⟨y, m, 1⟩ =
      replaceDay (firstOfNextMonth y m) (33 - daysInMonth y m) := by
  obtain ⟨h28, h31⟩ := daysInMonth_bounds y m
  have hsplit : (32 : Nat) = daysInMonth y m + (32 - daysInMonth y m) := by omega
  rw [hsplit, addDays_add, addDays_month]
  unfold firstOfNextMonth replaceDay
  split
  · rw [addDays_in_month (32 - daysInMonth y m) y (m + 1) 1
      (by obtain ⟨hb, _⟩ := daysInMonth_bounds y (m + 1); omega)]
    congr 1
    omega
  · rw [addDays_in_month (32 - daysInMonth y m) (y + 1) 1 1
      (by obtain ⟨hb, _⟩ := daysInMonth_bounds (y + 1) 1; omega)]
    congr 1
    omega

theorem firstOfNextMonth_day (y m : Nat) : (firstOfNextMonth y m).day = 1 := by
  unfold firstOfNextMonth
  split <;> rfl

theorem next_month_start_eq (y m : Nat) :
    next_month_start ⟨y, m, 1⟩ = firstOfNextMonth y m := by
  unfold next_month_start
  rw [addDays_32_month_start y m]
  unfold replaceDay
  have hd := firstOfNextMonth_day y m
  cases hfn : firstOfNextMonth y m with
  | mk fy fm fd =>
    rw [hfn] at hd
    simp at hd
    simp [hd]

theorem subDays_one_firstOfNextMonth (y m : Nat) (hm1 : 1 ≤ m) (hm12 : m ≤ 12) :
    subDays 1 (firstOfNextMonth y m) = ⟨y, m, daysInMonth y m⟩ := by
  show predDay (firstOfNextMonth y m) = ⟨y, m, daysInMonth y m⟩
  unfold firstOfNextMonth
  split
  · show predDay ⟨y, m + 1, 1⟩ = _
    unfold predDay
    rw [if_neg (show ¬(1 < (1 : Nat)) by omega),
      if_pos (show 1 < m + 1 by omega)]
    rw [show m + 1 - 1 = m by omega]
  · have hm : m = 12 := by omega
    subst hm
    show predDay ⟨y + 1, 1, 1⟩ = _
    unfold predDay
    rw [if_neg (show ¬(1 < (1 : Nat)) by omega),
      if_neg (show ¬(1 < (1 : Nat)) by omega)]
    rw [show y + 1 - 1 = y by omega]
    simp [daysInMonth]

-- ### Data model (`src/app.py`, Models section)

/-- Transaction kind tag (`Transaction.type` / `Category.type` strings
`income` / `expense` in the source). -/
inductive Kind where
  | income
  | expense
deriving DecidableEq, Repr

/-- A row of the `transactions` table.  `amount` is in cents and, per the
write-path validation, positive. -/
structure Transaction where
  user_id : Nat
  amount : Int
  date : Date
  type : Kind
  category_id : Nat
deriving DecidableEq, Repr

/-- A row of the `categories` table. -/
structure Category where
  id : Nat
  user_id : Nat
  name : String
  type : Kind
deriving DecidableEq, Repr

/-- A row of the `budgets` table.  The category is referenced by name, and
`end_date = none` means an open-ended budget. -/
structure Budget where
  id : Nat
  user_id : Nat
  category_name : String
  amount : Int
  start_date : Date
  end_date : Option Date
deriving DecidableEq, Repr

-- ### SQL-style aggregation primitives

/-- SQL `SUM(...)` as retrieved by `.scalar()`: `NULL` (`none`) when no
rows match, otherwise the sum of the rows. -/
def sqlSum : List Int → Option Int
  | [] => none
  | l => some l.sum

/-- The `x or Decimal(0.00)` idiom applied to a `.scalar()` result:
`None` becomes `0.00` (a falsy zero stays `0.00`). -/
def orZero : Option Int → Int
  | none => 0
  | some v => v

theorem orZero_sqlSum_cons (a : Int) (l : List Int) :
    orZero (sqlSum (a :: l)) = a + orZero (sqlSum l) := by
  cases l with
  | nil => simp [sqlSum, orZero]
  | cons b l2 => simp [sqlSum, orZero]

-- ### Sorting helpers (`order_by` clauses)

/-- Insert into a sorted list, keeping stability (equal keys keep their
original relative order). -/
def insertSorted (le : α → α → Bool) (x : α) : List α → List α
  | [] => [x]
  | y :: ys => if le x y then x :: y :: ys else y :: insertSorted le x ys

/-- Stable insertion sort, modelling a SQL `ORDER BY`. -/
def sortBy (le : α → α → Bool) (l : List α) : List α :=
  l.foldr (insertSorted le) []

theorem mem_insertSorted (le : α → α → Bool) (x a : α) :
    ∀ l : List α, a ∈ insertSorted le x l ↔ a = x ∨ a ∈ l := by
  intro l
  induction l with
  | nil => simp [insertSorted]
  | cons y ys ih =>
    unfold insertSorted
    split
    · simp
    · simp only [List.mem_cons, ih]
      tauto

theorem mem_sortBy (le : α → α → Bool) (a : α) :
    ∀ l : List α, a ∈ sortBy le l ↔ a ∈ l := by
  intro l
  induction l with
  | nil => simp [sortBy]
  | cons y ys ih =>
    show a ∈ insertSorted le y (sortBy le ys) ↔ _
    rw [mem_insertSorted]
    simp only [List.mem_cons, ih]

/-- Lexicographic code-point order on strings, modelling the `ORDER BY`
collation on `Category.name`. -/
def strLeAux : List Char → List Char → Bool
  | [], _ => true
  | _ :: _, [] => false
  | a :: as, b :: bs =>
    if a.val < b.val then true
    else if b.val < a.val then false
    else strLeAux as bs

def strLe (a b : String) : Bool := strLeAux a.data b.data

-- ### Ledger aggregation (`monthly_summary_report`, lines 605-617 / 624-632)

/-- The row filter of the repeated
`db.session.query(func.sum(Transaction.amount)).filter(...)` pattern:
user, kind, optional category, and half-open date interval
`[s, n)` (`date >= s`, `date < n`). -/
def txMatch (u : Nat) (k : Kind) (cid : Option Nat) (s n : Date)
    (t : Transaction) : Bool :=
  t.user_id == u &&
  (match cid with
   | none => true
   | some c => t.category_id == c) &&
  t.type == k &&
  dateLe s t.date &&
  dateLt t.date n

/-- `func.sum(Transaction.amount)` over the filtered rows followed by
`.scalar() or Decimal(0.00)`. -/
def ledger_sum (u : Nat) (k : Kind) (cid : Option Nat) (s n : Date)
    (txs : List Transaction) : Int :=
  orZero (sqlSum ((txs.filter (txMatch u k cid s n)).map (fun t => t.amount)))

-- ### Dashboard totals (`dashboard_page`, lines 139-158)

/-- `today.replace(day=1)`. -/
def start_of_month (today : Date) : Date := replaceDay today 1

/-- `(start_of_month + timedelta(days=32)).replace(day=1) - timedelta(days=1)`:
the last day of the current month, used as an inclusive upper bound. -/
def end_of_month (today : Date) : Date :=
  subDays 1 (replaceDay (addDays 32 (start_of_month today)) 1)

/-- The dashboard query filter: user, kind, and
`date >= start_of_month`, `date <= end_of_month` (both bounds inclusive). -/
def dash_match (u : Nat) (k : Kind) (today : Date) (t : Transaction) : Bool :=
  t.user_id == u && t.type == k &&
  dateLe (start_of_month today) t.date &&
  dateLe t.date (end_of_month today)

/-- `total_income` / `total_expenses` of the dashboard page. -/
def dashboard_total (u : Nat) (k : Kind) (today : Date)
    (txs : List Transaction) : Int :=
  orZero (sqlSum ((txs.filter (dash_match u k today)).map (fun t => t.amount)))

theorem end_of_month_eq (today : Date) (h : validDate today) :
    end_of_month today = ⟨today.year, today.month, daysInMonth today.year today.month⟩ := by
  obtain ⟨h1, h2, h3, h4, h5, h6⟩ := h
  unfold end_of_month start_of_month
  show subDays 1 (next_month_start (replaceDay today 1)) = _
  unfold replaceDay
  rw [next_month_start_eq today.year today.month]
  exact subDays_one_firstOfNextMonth today.year today.month h3 h4

-- ### Period resolution (`monthly_summary_report`, lines 585-602)

/-- Whether `date(y, m, 1)` succeeds: `datetime.date` raises `ValueError`
for a year outside `1..9999` or a month outside `1..12` (day 1 is always
in range). -/
def validYM (y m : Nat) : Bool :=
  1 ≤ y && y ≤ 9999 && 1 ≤ m && m ≤ 12

/-- Result of the `try/except ValueError` block that resolves the
displayed month. -/
structure ResolvedPeriod where
  display_start_of_month : Date
  display_next_month : Date
  selected_year : Nat
  selected_month : Nat
  warning : Bool
deriving DecidableEq, Repr

/-- Lines 592-602: build `date(selected_year, selected_month, 1)` and the
first day of the following month; on `ValueError` fall back to the month
containing `today` and flash a warning. -/
def resolve_display_period (today : Date) (selY selM : Nat) : ResolvedPeriod :=
  if validYM selY selM then
    let s : Date := ⟨selY, selM, 1⟩
    ⟨s, next_month_start s, selY, selM, false⟩
  else
    let s := replaceDay today 1
    ⟨s, next_month_start s, today.year, today.month, true⟩

-- ### Category breakdown (`monthly_summary_report`, lines 619-639)

/-- `Category.query.filter_by(user_id=..., type='expense').order_by(Category.name)` -/
def expense_categories (u : Nat) (cats : List Category) : List Category :=
  sortBy (fun a b => strLe a.name b.name)
    (cats.filter (fun c => c.user_id == u && c.type == Kind.expense))

/-- `Category.query.filter_by(user_id=..., type='income').order_by(Category.name)` -/
def income_categories (u : Nat) (cats : List Category) : List Category :=
  sortBy (fun a b => strLe a.name b.name)
    (cats.filter (fun c => c.user_id == u && c.type == Kind.income))

/-- An entry appended to `category_data`. -/
structure CategoryEntry where
  name : String
  type : Kind
  total : Int
deriving DecidableEq, Repr

/-- The loop of lines 624-639: for every category of the user (expense
categories first, then income categories) sum the user's *expense*
transactions of that category over the displayed month, and keep only
strictly positive totals. -/
def category_data (u : Nat) (s n : Date) (txs : List Transaction)
    (cats : List Category) : List CategoryEntry :=
  (expense_categories u cats ++ income_categories u cats).filterMap (fun c =>
    if 0 < ledger_sum u Kind.expense (some c.id) s n txs then
      some ⟨c.name, c.type, ledger_sum u Kind.expense (some c.id) s n txs⟩
    else none)

-- ### Budget summary (`monthly_summary_report`, lines 642-668)

/-- The filter of the `current_budgets` query (lines 642-648): the budget
belongs to the user, starts on or before the displayed month start, and
either has no end date or ends on or after the displayed month start. -/
def budget_is_current (u : Nat) (s : Date) (b : Budget) : Bool :=
  b.user_id == u &&
  dateLe b.start_date s &&
  (match b.end_date with
   | none => true
   | some e => dateLe s e)

/-- `Budget.query.filter(...).all()` of lines 642-648. -/
def current_budgets (u : Nat) (s : Date) (buds : List Budget) : List Budget :=
  buds.filter (budget_is_current u s)

/-- The join condition and filters of the `spent_on_budget_category`
query (lines 652-659): `Transaction` joined to `Category` on the
`category_id` foreign key, with the category matched by name. -/
def budget_join_match (u : Nat) (s n : Date) (name : String)
    (t : Transaction) (c : Category) : Bool :=
  c.id == t.category_id &&
  t.user_id == u &&
  c.user_id == u &&
  c.name == name &&
  t.type == Kind.expense &&
  dateLe s t.date &&
  dateLt t.date n

/-- `func.sum(Transaction.amount)` over the join rows, then
`.scalar() or Decimal(0.00)`. -/
def spent_on_budget_category (u : Nat) (s n : Date) (name : String)
    (txs : List Transaction) (cats : List Category) : Int :=
  orZero (sqlSum (txs.flatMap (fun t =>
    (cats.filter (budget_join_match u s n name t)).map (fun _ => t.amount))))

/-- An entry appended to `budget_summary` (lines 662-668). -/
structure BudgetEntry where
  category : String
  budgeted : Int
  spent : Int
  remaining : Int
  status : String
deriving DecidableEq, Repr

/-- The body of the budget loop: spent, remaining, and the
over/under-budget status string. -/
def budget_entry (u : Nat) (s n : Date) (txs : List Transaction)
    (cats : List Category) (b : Budget) : BudgetEntry :=
  let spent := spent_on_budget_category u s n b.category_name txs cats
  let remaining := b.amount - spent
  ⟨b.category_name, b.amount, spent, remaining,
    if 0 ≤ remaining then "Under Budget" else "Over Budget"⟩

/-- `budget_summary` of lines 650-668. -/
def budget_summary (u : Nat) (s n : Date) (txs : List Transaction)
    (cats : List Category) (buds : List Budget) : List BudgetEntry :=
  (current_budgets u s buds).map (budget_entry u s n txs cats)

-- ### Twelve-month series (`monthly_summary_report`, lines 671-700)

/-- Number of months since year 0, of the first-of-month date `d`. -/
def monthIndex (d : Date) : Nat := d.year * 12 + (d.month - 1)

/-- First-of-month date of a month index. -/
def ofMonthIndex (i : Nat) : Date := ⟨i / 12, i % 12 + 1, 1⟩

/-- `(s - pd.DateOffset(months=i)).date().replace(day=1)` for a
first-of-month date `s`. -/
def sub_months (s : Date) (i : Nat) : Date := ofMonthIndex (monthIndex s - i)

/-- An entry appended to `monthly_data` (lines 694-699); `month` is the
first day of the month the entry reports (the source renders it with
`strftime`). -/
structure MonthEntry where
  month : Date
  income : Int
  expense : Int
  net : Int
deriving DecidableEq, Repr

/-- One iteration of the 12-month loop for month start `mstart`. -/
def month_entry (u : Nat) (txs : List Transaction) (mstart : Date) : MonthEntry :=
  let nstart := next_month_start mstart
  let inc := ledger_sum u Kind.income none mstart nstart txs
  let exp := ledger_sum u Kind.expense none mstart nstart txs
  ⟨mstart, inc, exp, inc - exp⟩

/-- Lines 671-700: twelve iterations, month `s - i` for `i = 0..11`, then
`monthly_data.reverse()` so the list is chronological (oldest first). -/
def monthly_data (u : Nat) (s : Date) (txs : List Transaction) : List MonthEntry :=
  ((List.range 12).map (fun i => month_entry u txs (sub_months s i))).reverse

-- ### The whole monthly summary report

/-- The data handed to `reports/monthly_summary.html` (chart HTML and
dropdown lists omitted: pure presentation). -/
structure SummaryReport where
  warning : Bool
  selected_year : Nat
  selected_month : Nat
  display_start_of_month : Date
  display_next_month : Date
  total_income_month : Int
  total_expense_month : Int
  net_savings_month : Int
  category_data : List CategoryEntry
  budget_summary : List BudgetEntry
  monthly_data : List MonthEntry
deriving DecidableEq, Repr

/-- The `monthly_summary_report` route (lines 578-785), as a function of
the user, today's date, the externally supplied year/month selection, and
the user-visible tables. -/
def monthly_summary_report (u : Nat) (today : Date) (selY selM : Nat)
    (txs : List Transaction) (cats : List Category) (buds : List Budget) :
    SummaryReport :=
  let p := resolve_display_period today selY selM
  let s := p.display_start_of_month
  let n := p.display_next_month
  { warning := p.warning
    selected_year := p.selected_year
    selected_month := p.selected_month
    display_start_of_month := s
    display_next_month := n
    total_income_month := ledger_sum u Kind.income none s n txs
    total_expense_month := ledger_sum u Kind.expense none s n txs
    net_savings_month :=
      ledger_sum u Kind.income none s n txs - ledger_sum u Kind.expense none s n txs
    category_data := category_data u s n txs cats
    budget_summary := budget_summary u s n txs cats buds
    monthly_data := monthly_data u s txs }

-- ### Budgets page (`list_budgets`, lines 412-447)

/-- An entry of `budget_data_for_template`. -/
structure ListBudgetEntry where
  id : Nat
  category_name : String
  amount : Int
  start_date : Date
  end_date : Option Date
  spent : Int
  remaining : Int
  status : String
deriving DecidableEq, Repr

/-- The body of the `list_budgets` loop (lines 423-445): spent in the
current month for the budget's category, remaining, and status. -/
def list_budget_entry (u : Nat) (today : Date) (txs : List Transaction)
    (cats : List Category) (b : Budget) : ListBudgetEntry :=
  let s := replaceDay today 1
  let n := next_month_start s
  let spent := spent_on_budget_category u s n b.category_name txs cats
  let remaining := b.amount - spent
  ⟨b.id, b.category_name, b.amount, b.start_date, b.end_date, spent, remaining,
    if 0 ≤ remaining then "Under Budget" else "Over Budget"⟩

/-- The `list_budgets` route: the user's budgets ordered by start date
descending, each with its current-month spend figures. -/
def list_budgets (u : Nat) (today : Date) (txs : List Transaction)
    (cats : List Category) (buds : List Budget) : List ListBudgetEntry :=
  (sortBy (fun a b => dateLe b.start_date a.start_date)
      (buds.filter (fun b => b.user_id == u))).map
    (list_budget_entry u today txs cats)

-- ### Net worth report (`net_worth_report`, lines 788-857)

/-- `Transaction.query.filter(user_id=...).order_by(Transaction.date)`. -/
def user_transactions_sorted (u : Nat) (txs : List Transaction) : List Transaction :=
  sortBy (fun a b => dateLe a.date b.date) (txs.filter (fun t => t.user_id == u))

/-- Line 806: `+amount` for income, `-amount` for expense. -/
def signed_amount (t : Transaction) : Int :=
  match t.type with
  | Kind.income => t.amount
  | Kind.expense => -t.amount

/-- The distinct dates of the (sorted) transaction list, in first-seen
order — the group keys of `df.groupby('date')`. -/
def uniqueDatesAux : List Date → List Date → List Date
  | [], acc => acc.reverse
  | d :: ds, acc =>
    if acc.contains d then uniqueDatesAux ds acc
    else uniqueDatesAux ds (d :: acc)

/-- `df.groupby('date')['amount'].sum()`: per-day totals of the signed
amounts, keyed by date. -/
def daily_totals (txs : List Transaction) : List (Date × Int) :=
  (uniqueDatesAux (txs.map (fun t => t.date)) []).map (fun d =>
    (d, ((txs.filter (fun t => t.date == d)).map signed_amount).sum))

/-- `.cumsum()`: running prefix sums of the per-day totals. -/
def cumsum : List (Date × Int) → Int → List (Date × Int)
  | [], _ => []
  | (d, v) :: rest, acc => (d, acc + v) :: cumsum rest (acc + v)

/-- `daily_balance` of line 809. -/
def daily_balance (txs : List Transaction) : List (Date × Int) :=
  cumsum (daily_totals txs) 0

/-- The data handed to `reports/net_worth_report.html`. -/
structure NetWorthView where
  net_worth_chart : Option (List (Date × Int))
  current_net_worth : Int
deriving DecidableEq, Repr

/-- The `net_worth_report` route.  With no transactions it returns the
empty view (chart `None`, net worth `0.00`).  With at least one
transaction it computes `daily_balance` and then reaches line 823,
`merged_df = pd.df(full_df, on='Date', how='left')`: `pandas` has no
attribute `df` (the surrounding comments describe a merge of `full_df`
with `daily_balance`), so the request raises `AttributeError` and never
produces a series. -/
def net_worth_report (u : Nat) (txs : List Transaction) :
    Except String NetWorthView :=
  let sorted := user_transactions_sorted u txs
  if sorted.isEmpty then
    Except.ok ⟨none, 0⟩
  else
    let _balance := daily_balance sorted
    Except.error "AttributeError: module pandas has no attribute df"

-- ### Small facts about dates and sums used by the claim theorems

theorem dateLe_refl (d : Date) : dateLe d d = true := by
  apply decide_eq_true
  unfold dateLeP
  omega

theorem dateLt_irrefl (d : Date) : dateLt d d = false := by
  apply decide_eq_false
  unfold dateLtP
  omega

theorem status_over_iff (r : Int) :
    ((if 0 ≤ r then "Under Budget" else "Over Budget") = "Over Budget") ↔ r < 0 := by
  split
  · constructor
    · intro hEq
      exact absurd hEq (by decide)
    · intro hlt
      omega
  · constructor
    · intro _
      omega
    · intro _
      rfl

theorem status_under_iff (r : Int) :
    ((if 0 ≤ r then "Under Budget" else "Over Budget") = "Under Budget") ↔ 0 ≤ r := by
  split
  · constructor
    · intro _
      assumption
    · intro _
      rfl
  · constructor
    · intro hEq
      exact absurd hEq (by decide)
    · intro hle
      omega

/-- Shared helper: the ledger sum over an empty match set is `0`. -/
theorem ledger_sum_no_match (u : Nat) (k : Kind) (cid : Option Nat)
    (s n : Date) (txs : List Transaction)
    (h : ∀ t ∈ txs, txMatch u k cid s n t = false) :
    ledger_sum u k cid s n txs = 0 := by
  unfold ledger_sum
  have hfil : txs.filter (txMatch u k cid s n) = [] := by
    rw [List.filter_eq_nil_iff]
    intro t ht
    rw [h t ht]
    simp
  rw [hfil]
  rfl

-- ### C3: the ledger sum zero-fills empty result sets

/-- C3: for every user, kind, interval and optional category filter, when
no transaction matches the filter the aggregated sum is exactly `0.00`
(the `or Decimal(0.00)` fallback), a present value rather than `None`. -/
theorem ledger_sum_zero_fill (u : Nat) (k : Kind) (cid : Option Nat)
    (s n : Date) (txs : List Transaction)
    (h : ∀ t ∈ txs, txMatch u k cid s n t = false) :
    ledger_sum u k cid s n txs = 0 :=
  ledger_sum_no_match u k cid s n txs h

/-- Witness for C3 at a concrete input: one transaction of the right user
and category but outside the interval, so nothing matches. -/
theorem ledger_sum_zero_fill_witness :
    ledger_sum 1 Kind.expense (some 2) ⟨2024, 6, 1⟩ ⟨2024, 7, 1⟩
      [⟨1, 500, ⟨2024, 5, 10⟩, Kind.expense, 2⟩] = 0 :=
  ledger_sum_zero_fill 1 Kind.expense (some 2) ⟨2024, 6, 1⟩ ⟨2024, 7, 1⟩
    [⟨1, 500, ⟨2024, 5, 10⟩, Kind.expense, 2⟩] (by decide)

-- ### C5: remaining and over/under status

/-- C5: every budget report entry — both in the monthly summary's
`budget_summary` and on the budgets page — has
`remaining = budgeted - spent`, reads `Over Budget` exactly when
`remaining < 0`, and reads `Under Budget` exactly when `0 ≤ remaining`;
in particular spending exactly the budgeted amount (remaining `0.00`)
is `Under Budget`, and spending `100.01` against a `100.00` budget is
`Over Budget` with remaining `-0.01` (amounts in cents). -/
theorem budget_status_boundary (u : Nat) (s n today : Date)
    (txs : List Transaction) (cats : List Category) (b : Budget) :
    ((budget_entry u s n txs cats b).remaining
        = (budget_entry u s n txs cats b).budgeted
            - (budget_entry u s n txs cats b).spent)
    ∧ ((budget_entry u s n txs cats b).status = "Over Budget"
        ↔ (budget_entry u s n txs cats b).remaining < 0)
    ∧ ((budget_entry u s n txs cats b).status = "Under Budget"
        ↔ 0 ≤ (budget_entry u s n txs cats b).remaining)
    ∧ ((list_budget_entry u today txs cats b).remaining
        = (list_budget_entry u today txs cats b).amount
            - (list_budget_entry u today txs cats b).spent)
    ∧ ((list_budget_entry u today txs cats b).status = "Over Budget"
        ↔ (list_budget_entry u today txs cats b).remaining < 0)
    ∧ ((list_budget_entry u today txs cats b).status = "Under Budget"
        ↔ 0 ≤ (list_budget_entry u today txs cats b).remaining)
    ∧ (budget_entry 1 ⟨2024, 6, 1⟩ ⟨2024, 7, 1⟩
        [⟨1, 10000, ⟨2024, 6, 10⟩, Kind.expense, 5⟩]
        [⟨5, 1, "Groceries", Kind.expense⟩]
        ⟨9, 1, "Groceries", 10000, ⟨2024, 1, 1⟩, none⟩
        = ⟨"Groceries", 10000, 10000, 0, "Under Budget"⟩)
    ∧ (budget_entry 1 ⟨2024, 6, 1⟩ ⟨2024, 7, 1⟩
        [⟨1, 10001, ⟨2024, 6, 10⟩, Kind.expense, 5⟩]
        [⟨5, 1, "Groceries", Kind.expense⟩]
        ⟨9, 1, "Groceries", 10000, ⟨2024, 1, 1⟩, none⟩
        = ⟨"Groceries", 10000, 10001, -1, "Over Budget"⟩) :=
  ⟨rfl,
   status_over_iff (b.amount - spent_on_budget_category u s n b.category_name txs cats),
   status_under_iff (b.amount - spent_on_budget_category u s n b.category_name txs cats),
   rfl,
   status_over_iff (b.amount - spent_on_budget_category u (replaceDay today 1)
     (next_month_start (replaceDay today 1)) b.category_name txs cats),
   status_under_iff (b.amount - spent_on_budget_category u (replaceDay today 1)
     (next_month_start (replaceDay today 1)) b.category_name txs cats),
   by rfl,
   by rfl⟩

-- ### C2: the net worth series builder crashes on every non-empty history

/-- C2: the claimed forward-filled daily balance series is never built.
At the P5 example input (income `100.00` on 2024-01-01 and expense
`30.00` on 2024-01-03) the `net_worth_report` route reaches line 823,
`merged_df = pd.df(full_df, on='Date', how='left')`, and raises
`AttributeError` because `pandas` has no attribute `df`; the code's own
comment there says it intends to merge the balance series with the full
date range. -/
theorem net_worth_report_crash_eval :
    net_worth_report 1
      [⟨1, 10000, ⟨2024, 1, 1⟩, Kind.income, 1⟩,
       ⟨1, 3000, ⟨2024, 1, 3⟩, Kind.expense, 2⟩]
      = Except.error "AttributeError: module pandas has no attribute df" := by
  rfl

-- ### C8: zero transactions yield the empty view and net worth 0.00

/-- C8: for a user with no transactions the net worth route returns
early with no chart and a current net worth of exactly `0.00`, raising
no error. -/
theorem net_worth_empty_zero (u : Nat) (txs : List Transaction)
    (h : txs.filter (fun t => t.user_id == u) = []) :
    net_worth_report u txs = Except.ok ⟨none, 0⟩ := by
  unfold net_worth_report user_transactions_sorted
  rw [h]
  rfl

/-- Witness for C8: a concrete store whose only transaction belongs to a
different user. -/
theorem net_worth_empty_zero_witness :
    net_worth_report 1 [⟨2, 500, ⟨2024, 6, 1⟩, Kind.income, 3⟩]
      = Except.ok ⟨none, 0⟩ :=
  net_worth_empty_zero 1 [⟨2, 500, ⟨2024, 6, 1⟩, Kind.income, 3⟩] (by decide)

-- ### C1: budgets appear in the summary exactly when start-anchored active

/-- C1: the monthly summary builds its `budget_summary` from exactly the
budgets of the user with `start_date <= interval.start` and
(`end_date` is `None` or `end_date >= interval.start`); in particular a
budget starting 2024-01-01 with no end date is active for
`[2024-06-01, 2024-07-01)` while one starting 2024-06-15 is not. -/
theorem budget_summary_active_iff (u : Nat) (s n : Date)
    (txs : List Transaction) (cats : List Category) (buds : List Budget)
    (b : Budget) :
    (b ∈ current_budgets u s buds ↔
      b ∈ buds ∧ b.user_id = u ∧ dateLeP b.start_date s ∧
        (b.end_date = none ∨ ∃ e, b.end_date = some e ∧ dateLeP s e))
    ∧ budget_summary u s n txs cats buds
        = (current_budgets u s buds).map (budget_entry u s n txs cats)
    ∧ budget_is_current 7 ⟨2024, 6, 1⟩ ⟨1, 7, "Food", 100, ⟨2024, 1, 1⟩, none⟩
        = true
    ∧ budget_is_current 7 ⟨2024, 6, 1⟩ ⟨2, 7, "Food", 100, ⟨2024, 6, 15⟩, none⟩
        = false := by
  refine ⟨?_, rfl, by decide, by decide⟩
  unfold current_budgets
  rw [List.mem_filter]
  constructor
  · rintro ⟨hmem, hcur⟩
    unfold budget_is_current at hcur
    cases hE : b.end_date with
    | none =>
      rw [hE] at hcur
      simp only [Bool.and_eq_true, beq_iff_eq, dateLe, decide_eq_true_eq] at hcur
      exact ⟨hmem, hcur.1.1, hcur.1.2, Or.inl rfl⟩
    | some e =>
      rw [hE] at hcur
      simp only [Bool.and_eq_true, beq_iff_eq, dateLe, decide_eq_true_eq] at hcur
      exact ⟨hmem, hcur.1.1, hcur.1.2, Or.inr ⟨e, rfl, hcur.2⟩⟩
  · rintro ⟨hmem, hu, hstart, hend⟩
    refine ⟨hmem, ?_⟩
    unfold budget_is_current
    rcases hend with hnone | ⟨e, hsome, he⟩
    · rw [hnone]
      simp only [Bool.and_eq_true, beq_iff_eq, dateLe, decide_eq_true_eq]
      exact ⟨⟨hu, hstart⟩, trivial⟩
    · rw [hsome]
      simp only [Bool.and_eq_true, beq_iff_eq, dateLe, decide_eq_true_eq]
      exact ⟨⟨hu, hstart⟩, he⟩

/-- Witness for C1: a concrete open-ended budget is selected for the
June 2024 interval. -/
theorem budget_summary_active_iff_witness :
    ⟨1, 7, "Food", 100, ⟨2024, 1, 1⟩, none⟩
      ∈ current_budgets 7 ⟨2024, 6, 1⟩
        [⟨1, 7, "Food", 100, ⟨2024, 1, 1⟩, none⟩] :=
  (budget_summary_active_iff 7 ⟨2024, 6, 1⟩ ⟨2024, 7, 1⟩ [] []
      [⟨1, 7, "Food", 100, ⟨2024, 1, 1⟩, none⟩]
      ⟨1, 7, "Food", 100, ⟨2024, 1, 1⟩, none⟩).1.mpr
    ⟨by decide, rfl, by decide, Or.inl rfl⟩

-- ### C9: a budget with no surviving category still gets a spend figure

/-- C9: every active budget contributes an entry to `budget_summary`
whose `spent` is the name-matched join sum; when no category of the user
carries the budget's `category_name` the join is empty and the entry
still appears, with `spent = 0.00` (the computation does not fail). -/
theorem budget_spend_without_category (u : Nat) (s n : Date)
    (txs : List Transaction) (cats : List Category) (buds : List Budget)
    (b : Budget) (hb : b ∈ buds) (hcur : budget_is_current u s b = true) :
    budget_entry u s n txs cats b ∈ budget_summary u s n txs cats buds
    ∧ (budget_entry u s n txs cats b).spent
        = spent_on_budget_category u s n b.category_name txs cats
    ∧ ((∀ c ∈ cats, c.user_id = u → c.name ≠ b.category_name) →
        (budget_entry u s n txs cats b).spent = 0) := by
  refine ⟨?_, rfl, ?_⟩
  · unfold budget_summary
    exact List.mem_map_of_mem _
      (by unfold current_budgets; exact List.mem_filter.mpr ⟨hb, hcur⟩)
  · intro h
    show spent_on_budget_category u s n b.category_name txs cats = 0
    unfold spent_on_budget_category
    have hrows : txs.flatMap (fun t =>
        (cats.filter (budget_join_match u s n b.category_name t)).map
          (fun _ => t.amount)) = [] := by
      rw [List.flatMap_eq_nil_iff]
      intro t _
      rw [List.map_eq_nil_iff, List.filter_eq_nil_iff]
      intro c hc
      intro heq
      simp only [budget_join_match, Bool.and_eq_true, beq_iff_eq] at heq
      obtain ⟨⟨⟨⟨⟨⟨_, _⟩, hcu⟩, hcn⟩, _⟩, _⟩, _⟩ := heq
      exact h c hc hcu hcn
    rw [hrows]
    rfl

/-- Witness for C9: a budget whose category name matches no category at
all still appears in the summary with `spent = 0`. -/
theorem budget_spend_without_category_witness :
    budget_entry 1 ⟨2024, 6, 1⟩ ⟨2024, 7, 1⟩ [] []
        ⟨3, 1, "Ghost", 5000, ⟨2024, 1, 1⟩, none⟩
      ∈ budget_summary 1 ⟨2024, 6, 1⟩ ⟨2024, 7, 1⟩ [] []
        [⟨3, 1, "Ghost", 5000, ⟨2024, 1, 1⟩, none⟩]
    ∧ (budget_entry 1 ⟨2024, 6, 1⟩ ⟨2024, 7, 1⟩ [] []
        ⟨3, 1, "Ghost", 5000, ⟨2024, 1, 1⟩, none⟩).spent = 0 := by
  have h := budget_spend_without_category 1 ⟨2024, 6, 1⟩ ⟨2024, 7, 1⟩ [] []
    [⟨3, 1, "Ghost", 5000, ⟨2024, 1, 1⟩, none⟩]
    ⟨3, 1, "Ghost", 5000, ⟨2024, 1, 1⟩, none⟩ (by decide) (by decide)
  exact ⟨h.1, h.2.2 (by intro c hc; exact absurd hc (List.not_mem_nil c))⟩

-- ### C10: the category breakdown is expense-filtered and positive

/-- Membership characterization of `category_data`. -/
theorem mem_category_data (u : Nat) (s n : Date) (txs : List Transaction)
    (cats : List Category) (e : CategoryEntry) :
    e ∈ category_data u s n txs cats ↔
      ∃ c, c ∈ (expense_categories u cats ++ income_categories u cats) ∧
        0 < ledger_sum u Kind.expense (some c.id) s n txs ∧
        e = ⟨c.name, c.type, ledger_sum u Kind.expense (some c.id) s n txs⟩ := by
  unfold category_data
  rw [List.mem_filterMap]
  constructor
  · rintro ⟨c, hc, hf⟩
    by_cases hpos : 0 < ledger_sum u Kind.expense (some c.id) s n txs
    · rw [if_pos hpos] at hf
      exact ⟨c, hc, hpos, (Option.some.inj hf).symm⟩
    · rw [if_neg hpos] at hf
      cases hf
  · rintro ⟨c, hc, hpos, rfl⟩
    exact ⟨c, hc, by rw [if_pos hpos]⟩

/-- The categories iterated by the breakdown loop are exactly the
user's categories. -/
theorem mem_user_categories (u : Nat) (cats : List Category) (c : Category) :
    c ∈ (expense_categories u cats ++ income_categories u cats) ↔
      c ∈ cats ∧ c.user_id = u := by
  rw [List.mem_append]
  unfold expense_categories income_categories
  rw [mem_sortBy, mem_sortBy, List.mem_filter, List.mem_filter]
  simp only [Bool.and_eq_true, beq_iff_eq]
  constructor
  · rintro (⟨h1, h2, _⟩ | ⟨h1, h2, _⟩) <;> exact ⟨h1, h2⟩
  · rintro ⟨h1, h2⟩
    cases hT : c.type with
    | income => exact Or.inr ⟨h1, h2, rfl⟩
    | expense => exact Or.inl ⟨h1, h2, rfl⟩

/-- C10: every entry of the monthly summary's category breakdown has a
strictly positive total; every total is an expense-kind-filtered sum for
one of the user's categories; and an income category whose transactions
all carry the income kind (and whose name is not shared, per the
per-user uniqueness constraint) never appears in the breakdown. -/
theorem category_breakdown_expense_filter (u : Nat) (s n : Date)
    (txs : List Transaction) (cats : List Category) :
    (∀ e ∈ category_data u s n txs cats, 0 < e.total)
    ∧ (∀ e ∈ category_data u s n txs cats, ∃ c, c ∈ cats ∧ c.user_id = u ∧
        e.name = c.name ∧ e.type = c.type ∧
        e.total = ledger_sum u Kind.expense (some c.id) s n txs)
    ∧ (∀ c : Category, c.user_id = u → c.type = Kind.income →
        (∀ t ∈ txs, t.category_id = c.id → t.type = Kind.income) →
        (∀ c2 ∈ cats, c2.user_id = u → c2.name = c.name → c2 = c) →
        ∀ e ∈ category_data u s n txs cats, e.name ≠ c.name) := by
  refine ⟨?_, ?_, ?_⟩
  · intro e he
    rw [mem_category_data] at he
    obtain ⟨c, _, hpos, rfl⟩ := he
    exact hpos
  · intro e he
    rw [mem_category_data] at he
    obtain ⟨c, hcmem, hpos, rfl⟩ := he
    have hc := (mem_user_categories u cats c).mp hcmem
    exact ⟨c, hc.1, hc.2, rfl, rfl, rfl⟩
  · intro c hcu hctype hkind huniq e he
    rw [mem_category_data] at he
    obtain ⟨c2, hc2mem, hpos, rfl⟩ := he
    intro hname
    have hc2 := (mem_user_categories u cats c2).mp hc2mem
    have hc2c : c2 = c := huniq c2 hc2.1 hc2.2 hname
    have hzero : ledger_sum u Kind.expense (some c2.id) s n txs = 0 := by
      apply ledger_sum_no_match
      intro t ht
      unfold txMatch
      by_cases hcid : t.category_id = c2.id
      · have hty : t.type = Kind.income := by
          apply hkind t ht
          rw [hcid, hc2c]
        rw [hty]
        simp
      · simp [hcid]
    omega

/-- Witness for C10: with an expense category `Food` (one June expense of
`50.00`) and an income category `Salary` (one June income of `99.00`),
the breakdown contains the `Food` entry with positive total and no
`Salary` entry. -/
theorem category_breakdown_expense_filter_witness :
    0 < (⟨"Food", Kind.expense, 5000⟩ : CategoryEntry).total
    ∧ (⟨"Food", Kind.expense, 5000⟩ : CategoryEntry).name ≠ "Salary" := by
  have hthm := category_breakdown_expense_filter 7 ⟨2024, 6, 1⟩ ⟨2024, 7, 1⟩
    [⟨7, 5000, ⟨2024, 6, 5⟩, Kind.expense, 1⟩,
     ⟨7, 9900, ⟨2024, 6, 6⟩, Kind.income, 2⟩]
    [⟨1, 7, "Food", Kind.expense⟩, ⟨2, 7, "Salary", Kind.income⟩]
  refine ⟨hthm.1 ⟨"Food", Kind.expense, 5000⟩ (by decide), ?_⟩
  exact hthm.2.2 ⟨2, 7, "Salary", Kind.income⟩ rfl rfl (by decide) (by decide)
    ⟨"Food", Kind.expense, 5000⟩ (by decide)

-- ### C4: half-open interval boundary behaviour of every period sum

theorem not_firstOfNextMonth_leP (y m d : Nat) :
    ¬ dateLeP (firstOfNextMonth y m) ⟨y, m, d⟩ := by
  unfold firstOfNextMonth
  split
  · show ¬ dateLeP ⟨y, m + 1, 1⟩ ⟨y, m, d⟩
    unfold dateLeP
    simp
  · show ¬ dateLeP ⟨y + 1, 1, 1⟩ ⟨y, m, d⟩
    unfold dateLeP
    simp

theorem first_leP_last (y m d : Nat) (h1 : 1 ≤ d) :
    dateLeP ⟨y, m, 1⟩ ⟨y, m, d⟩ :=
  Or.inr ⟨rfl, Or.inr ⟨rfl, h1⟩⟩

theorem filtered_sum_cons_pos (p : Transaction → Bool) (t : Transaction)
    (txs : List Transaction) (hp : p t = true) :
    orZero (sqlSum (((t :: txs).filter p).map (fun r => r.amount)))
      = t.amount + orZero (sqlSum ((txs.filter p).map (fun r => r.amount))) := by
  rw [List.filter_cons, hp]
  simp only [if_pos, List.map_cons]
  rw [orZero_sqlSum_cons]

theorem filtered_sum_cons_neg (p : Transaction → Bool) (t : Transaction)
    (txs : List Transaction) (hp : p t = false) :
    orZero (sqlSum (((t :: txs).filter p).map (fun r => r.amount)))
      = orZero (sqlSum ((txs.filter p).map (fun r => r.amount))) := by
  rw [List.filter_cons, hp]
  simp

/-- C4: in every period aggregation over `[start, end)` a transaction
dated exactly on `start` is counted and one dated exactly on `end` is
not.  For the ledger sums of the monthly summary (and the per-category,
per-month sums that reuse the same filter) `end` is the exclusive
`display_next_month` bound; for the dashboard, whose query uses an
inclusive last-day-of-month bound, a transaction dated on the first day
of the next month (the interval's `end`) is still excluded and one dated
on the month's first day is included. -/
theorem interval_boundary_semantics :
    (∀ (u : Nat) (k : Kind) (cid : Option Nat) (s n : Date)
        (txs : List Transaction) (t : Transaction),
      t.date = n →
      ledger_sum u k cid s n (t :: txs) = ledger_sum u k cid s n txs)
    ∧ (∀ (u : Nat) (k : Kind) (cid : Option Nat) (s n : Date)
        (txs : List Transaction) (t : Transaction),
      t.date = s → t.user_id = u → t.type = k →
      (match cid with
       | none => True
       | some c => t.category_id = c) →
      dateLtP s n →
      ledger_sum u k cid s n (t :: txs) = t.amount + ledger_sum u k cid s n txs)
    ∧ (∀ (u : Nat) (k : Kind) (today : Date) (txs : List Transaction)
        (t : Transaction),
      validDate today →
      t.date = firstOfNextMonth today.year today.month →
      dashboard_total u k today (t :: txs) = dashboard_total u k today txs)
    ∧ (∀ (u : Nat) (k : Kind) (today : Date) (txs : List Transaction)
        (t : Transaction),
      validDate today →
      t.date = replaceDay today 1 → t.user_id = u → t.type = k →
      dashboard_total u k today (t :: txs)
        = t.amount + dashboard_total u k today txs) := by
  refine ⟨?_, ?_, ?_, ?_⟩
  · intro u k cid s n txs t hdate
    have hm : txMatch u k cid s n t = false := by
      simp [txMatch, hdate, dateLt_irrefl]
    exact filtered_sum_cons_neg (txMatch u k cid s n) t txs hm
  · intro u k cid s n txs t hdate huser htype hcat hlt
    have hm : txMatch u k cid s n t = true := by
      unfold txMatch
      rw [hdate, huser, htype]
      cases cid with
      | none => simp [dateLe_refl, dateLt, hlt]
      | some c =>
        rw [show t.category_id = c from hcat]
        simp [dateLe_refl, dateLt, hlt]
    exact filtered_sum_cons_pos (txMatch u k cid s n) t txs hm
  · intro u k today txs t hval hdate
    have hD : dateLe t.date (end_of_month today) = false := by
      rw [hdate, end_of_month_eq today hval]
      exact decide_eq_false (not_firstOfNextMonth_leP today.year today.month _)
    have hm : dash_match u k today t = false := by
      simp [dash_match, hD]
    exact filtered_sum_cons_neg (dash_match u k today) t txs hm
  · intro u k today txs t hval hdate huser htype
    have hstart : dateLe (start_of_month today) t.date = true := by
      rw [hdate]
      exact dateLe_refl (replaceDay today 1)
    have hend : dateLe t.date (end_of_month today) = true := by
      rw [hdate, end_of_month_eq today hval]
      apply decide_eq_true
      exact first_leP_last today.year today.month _
        (by have := daysInMonth_bounds today.year today.month; omega)
    have hm : dash_match u k today t = true := by
      unfold dash_match
      rw [huser, htype, hstart, hend]
      simp
    exact filtered_sum_cons_pos (dash_match u k today) t txs hm

/-- Witness for C4: concrete June 2024 interval and a June-15 dashboard
date; the 2024-07-01 transaction is excluded from both sums, the
2024-06-01 transaction is included in both. -/
theorem interval_boundary_semantics_witness :
    ledger_sum 1 Kind.income none ⟨2024, 6, 1⟩ ⟨2024, 7, 1⟩
        [⟨1, 500, ⟨2024, 7, 1⟩, Kind.income, 3⟩]
      = ledger_sum 1 Kind.income none ⟨2024, 6, 1⟩ ⟨2024, 7, 1⟩ []
    ∧ ledger_sum 1 Kind.income none ⟨2024, 6, 1⟩ ⟨2024, 7, 1⟩
        [⟨1, 500, ⟨2024, 6, 1⟩, Kind.income, 3⟩]
      = 500 + ledger_sum 1 Kind.income none ⟨2024, 6, 1⟩ ⟨2024, 7, 1⟩ []
    ∧ dashboard_total 1 Kind.expense ⟨2024, 6, 15⟩
        [⟨1, 700, ⟨2024, 7, 1⟩, Kind.expense, 3⟩]
      = dashboard_total 1 Kind.expense ⟨2024, 6, 15⟩ []
    ∧ dashboard_total 1 Kind.expense ⟨2024, 6, 15⟩
        [⟨1, 700, ⟨2024, 6, 1⟩, Kind.expense, 3⟩]
      = 700 + dashboard_total 1 Kind.expense ⟨2024, 6, 15⟩ [] :=
  ⟨interval_boundary_semantics.1 1 Kind.income none ⟨2024, 6, 1⟩ ⟨2024, 7, 1⟩
      [] ⟨1, 500, ⟨2024, 7, 1⟩, Kind.income, 3⟩ rfl,
   interval_boundary_semantics.2.1 1 Kind.income none ⟨2024, 6, 1⟩ ⟨2024, 7, 1⟩
      [] ⟨1, 500, ⟨2024, 6, 1⟩, Kind.income, 3⟩ rfl rfl rfl trivial (by decide),
   interval_boundary_semantics.2.2.1 1 Kind.expense ⟨2024, 6, 15⟩
      [] ⟨1, 700, ⟨2024, 7, 1⟩, Kind.expense, 3⟩ (by decide) rfl,
   interval_boundary_semantics.2.2.2 1 Kind.expense ⟨2024, 6, 15⟩
      [] ⟨1, 700, ⟨2024, 6, 1⟩, Kind.expense, 3⟩ (by decide) rfl rfl rfl⟩

-- ### C6: the trailing-twelve-month series

theorem monthIndex_ofMonthIndex (k : Nat) : monthIndex (ofMonthIndex k) = k := by
  unfold monthIndex ofMonthIndex
  simp
  omega

theorem ofMonthIndex_monthIndex (s : Date) (hday : s.day = 1)
    (hm1 : 1 ≤ s.month) (hm12 : s.month ≤ 12) :
    ofMonthIndex (monthIndex s) = s := by
  obtain ⟨y, m, d⟩ := s
  simp only [] at hday hm1 hm12
  subst hday
  show ofMonthIndex (y * 12 + (m - 1)) = ⟨y, m, 1⟩
  unfold ofMonthIndex
  rw [Date.mk.injEq]
  refine ⟨?_, ?_, rfl⟩ <;> omega

/-- C6: for a first-of-month reference date `s` the summary's monthly
series has exactly twelve entries, the entry at position `j` reports the
month `11 - j` months before `s` (so the list is chronological,
consecutive, and ends with the month of `s`), and every entry carries
that month's income total, expense total, and their difference. -/
theorem monthly_series_trailing_twelve (u : Nat) (s : Date)
    (txs : List Transaction) (hday : s.day = 1) (hm1 : 1 ≤ s.month)
    (hm12 : s.month ≤ 12) (hidx : 11 ≤ monthIndex s) :
    (monthly_data u s txs).length = 12
    ∧ (∀ j, j < 12 → (monthly_data u s txs)[j]? =
        some (month_entry u txs (sub_months s (11 - j))))
    ∧ (∀ j, j < 12 → ∀ e, (monthly_data u s txs)[j]? = some e →
        monthIndex e.month = monthIndex s - 11 + j)
    ∧ (monthly_data u s txs)[11]? = some (month_entry u txs s)
    ∧ (∀ m0 : Date, (month_entry u txs m0).income
          = ledger_sum u Kind.income none m0 (next_month_start m0) txs
        ∧ (month_entry u txs m0).expense
          = ledger_sum u Kind.expense none m0 (next_month_start m0) txs
        ∧ (month_entry u txs m0).net
          = (month_entry u txs m0).income - (month_entry u txs m0).expense) := by
  have hj : ∀ j, j < 12 → (monthly_data u s txs)[j]? =
      some (month_entry u txs (sub_months s (11 - j))) := by
    intro j hj12
    interval_cases j <;> rfl
  refine ⟨rfl, hj, ?_, ?_, fun m0 => ⟨rfl, rfl, rfl⟩⟩
  · intro j hj12 e he
    rw [hj j hj12] at he
    have he2 := Option.some.inj he
    rw [← he2]
    show monthIndex (sub_months s (11 - j)) = _
    unfold sub_months
    rw [monthIndex_ofMonthIndex]
    omega
  · calc (monthly_data u s txs)[11]?
        = some (month_entry u txs (sub_months s 0)) := rfl
      _ = some (month_entry u txs s) := by
          rw [show sub_months s 0 = s from by
            unfold sub_months
            rw [Nat.sub_zero]
            exact ofMonthIndex_monthIndex s hday hm1 hm12]

/-- Witness for C6 at June 2024: twelve entries, July 2023 first,
June 2024 last. -/
theorem monthly_series_trailing_twelve_witness :
    (monthly_data 1 ⟨2024, 6, 1⟩ []).length = 12
    ∧ (monthly_data 1 ⟨2024, 6, 1⟩ [])[0]? =
        some (month_entry 1 [] (sub_months ⟨2024, 6, 1⟩ 11))
    ∧ (monthly_data 1 ⟨2024, 6, 1⟩ [])[11]? =
        some (month_entry 1 [] ⟨2024, 6, 1⟩) := by
  have h := monthly_series_trailing_twelve 1 ⟨2024, 6, 1⟩ [] rfl (by decide)
    (by decide) (by decide)
  exact ⟨h.1, h.2.1 0 (by omega), h.2.2.2.1⟩

-- ### C7: invalid (year, month) selections fall back with a warning

/-- C7: when the externally supplied `(year, month)` pair is not a valid
calendar period (e.g. month 13), the summary route does not fail: the
`ValueError` of `date(year, month, 1)` is caught, the report is the one
for the month containing today, and the only difference from a direct
current-month report is the flashed warning. -/
theorem invalid_period_fallback (u : Nat) (today : Date) (selY selM : Nat)
    (txs : List Transaction) (cats : List Category) (buds : List Budget)
    (hbad : validYM selY selM = false) (htoday : validDate today) :
    monthly_summary_report u today selY selM txs cats buds
      = { monthly_summary_report u today today.year today.month txs cats buds
            with warning := true } := by
  have hok : validYM today.year today.month = true := by
    obtain ⟨h1, h2, h3, h4, _, _⟩ := htoday
    unfold validYM
    simp only [Bool.and_eq_true, decide_eq_true_eq]
    exact ⟨⟨⟨h1, h2⟩, h3⟩, h4⟩
  unfold monthly_summary_report resolve_display_period
  rw [hbad, hok]
  simp
  exact ⟨rfl, rfl, rfl, rfl, rfl, rfl, rfl, rfl⟩

/-- Witness for C7: month 13 of 2024 falls back to March 2025 (the month
of today) with the warning set. -/
theorem invalid_period_fallback_witness :
    monthly_summary_report 1 ⟨2025, 3, 10⟩ 2024 13 [] [] []
      = { monthly_summary_report 1 ⟨2025, 3, 10⟩ 2025 3 [] [] []
            with warning := true } :=
  invalid_period_fallback 1 ⟨2025, 3, 10⟩ 2024 13 [] [] [] (by decide) (by decide)

end ApexMoney
